import Mathlib

/-!
Verification development for the PSO repository.

The repository implements a `RandomGenerator` wrapping C++ `std::mt19937` and
`std::uniform_real_distribution<double>` (src/source/random_generator.cpp),
and declares the plain data types `Particle`, `PSOParameters` and
`OptimisationResult` (src/include/pso_types.h).  The optimization engine
itself is not implemented; where a claim concerns it, the definition is
modelled from the specification and marked as such.

Machine integers (uint32 of the Mersenne twister) are embedded as `Nat` with
explicit reduction `% 4294967296` wherever the C++ computes in `uint32`;
`double` values are embedded as exact rationals `ℚ`.
-/

namespace PSO

/-! ### Mersenne twister mt19937 (state and transition of std::mt19937) -/

/-- State of `std::mt19937`: 624 32-bit words plus the read index `_M_p`. -/
structure MtState where
  words : List Nat
  idx : Nat
deriving DecidableEq

/-- Word recurrence of mt19937 seeding:
`x[i] = (1812433253 * (x[i-1] xor (x[i-1] >> 30)) + i) mod 2^32`. -/
def mtSeedWord (prev i : Nat) : Nat :=
  (1812433253 * (prev ^^^ (prev >>> 30)) + i) % 4294967296

/-- Generates words `x[i], x[i+1], ...` (fuel-counted) from `x[i-1] = prev`. -/
def mtSeedWords : Nat → Nat → Nat → List Nat
  | _, _, 0 => []
  | prev, i, n + 1 =>
    let w := mtSeedWord prev i
    w :: mtSeedWords w (i + 1) n

/-- `std::mt19937` seeding: `x[0] = seed mod 2^32`, then the word recurrence;
the index is set to 624 so that the first extraction triggers a twist. -/
def mtInit (seed : Nat) : MtState :=
  let x0 := seed % 4294967296
  ⟨x0 :: mtSeedWords x0 1 623, 624⟩

/-- One in-place step of the twist loop at position `k`. -/
def twistStep (x : List Nat) (k : Nat) : List Nat :=
  let y := (x.getD k 0 &&& 2147483648) ||| (x.getD ((k + 1) % 624) 0 &&& 2147483647)
  let mag := if y % 2 = 1 then 2567483615 else 0
  x.set k ((x.getD ((k + 397) % 624) 0 ^^^ (y >>> 1) ^^^ mag) % 4294967296)

/-- Runs `twistStep` at `k, k+1, ...` (fuel-counted). -/
def twistAux : List Nat → Nat → Nat → List Nat
  | x, _, 0 => x
  | x, k, n + 1 => twistAux (twistStep x k) (k + 1) n

/-- The full twist (`_M_gen_rand`): regenerates all 624 words in place. -/
def twist (x : List Nat) : List Nat := twistAux x 0 624

/-- mt19937 output tempering; all arithmetic is on `uint32`. -/
def temper (y0 : Nat) : Nat :=
  let y1 := y0 ^^^ (y0 >>> 11)
  let y2 := y1 ^^^ ((y1 <<< 7) &&& 2636928640)
  let y3 := y2 ^^^ ((y2 <<< 15) &&& 4022730752)
  (y3 ^^^ (y3 >>> 18)) % 4294967296

/-- One extraction from the engine: twist when the index is exhausted, then
temper the current word and advance the index. -/
def mtNext (s : MtState) : Nat × MtState :=
  let x := if 624 ≤ s.idx then twist s.words else s.words
  let i := if 624 ≤ s.idx then 0 else s.idx
  (temper (x.getD i 0), ⟨x, i + 1⟩)

/-- `std::generate_canonical<double, 53, mt19937>`: two engine draws combined
to a rational in `[0, 1)`; exact-rational embedding of the double arithmetic
`(x0 + x1 * 2^32) / 2^64`. -/
def nextCanonical (s : MtState) : ℚ × MtState :=
  let a := mtNext s
  let b := mtNext a.2
  (((a.1 + b.1 * 4294967296 : ℕ) : ℚ) / 18446744073709551616, b.2)

/-! ### RandomGenerator (src/include/random_generator.h, src/source/random_generator.cpp) -/

/-- Error taxonomy of the RandomSource contract in the specification. -/
inductive RngError
  | InvalidRange
deriving DecidableEq

/-- The `RandomGenerator` class: a mt19937 engine `generator_` plus a
`uniform_real_distribution<double>` member `distribution_`, represented by
its two parameters `a` (min) and `b` (max). -/
structure RandomGenerator where
  gen : MtState
  distA : ℚ
  distB : ℚ

/-- The seeded constructor `RandomGenerator(unsigned int seed)`: seeds the
engine; the member distribution is default-constructed with parameters
`(0, 1)`. -/
def mkSeeded (seed : Nat) : RandomGenerator := ⟨mtInit seed, 0, 1⟩

/-- The default constructor `RandomGenerator()`: seeds the engine with
`std::random_device{}() xor clock.now().time_since_epoch().count()`.  The
two environment values (hardware entropy, clock ticks) come from outside the
program, so they are explicit arguments of the embedding. -/
def mkDefault (entropy ticks : Nat) : RandomGenerator :=
  ⟨mtInit (entropy ^^^ ticks), 0, 1⟩

/-- `setSeed(seed)`: reseeds the engine only; the distribution member is
left untouched. -/
def setSeed (g : RandomGenerator) (seed : Nat) : RandomGenerator :=
  { g with gen := mtInit seed }

/-- `uniform(min, max)`: sets the distribution parameters to `(min, max)` -
with no validation of the range - then returns one draw, which
`uniform_real_distribution` computes as
`generate_canonical() * (b - a) + a`. -/
def uniform (g : RandomGenerator) (min max : ℚ) : ℚ × RandomGenerator :=
  let c := nextCanonical g.gen
  (c.1 * (max - min) + min, ⟨c.2, min, max⟩)

/-- Output sequence of a finite sequence of `uniform` calls with the given
argument pairs, threading the generator state. -/
def runCalls : RandomGenerator → List (ℚ × ℚ) → List ℚ
  | _, [] => []
  | g, (lo, hi) :: rest =>
    (uniform g lo hi).1 :: runCalls (uniform g lo hi).2 rest

/-- The RandomSource `uniform` contract as the specification words it,
stated alongside the implementation for comparison: fails with
`InvalidRange` when `min > max`, otherwise produces the implementation's
result. -/
def uniformContract (g : RandomGenerator) (min max : ℚ) :
    Except RngError (ℚ × RandomGenerator) :=
  if max < min then .error .InvalidRange else .ok (uniform g min max)

/-! ### Data types (src/include/pso_types.h) -/

/-- The `Particle` struct. `double` fields are embedded as `ℚ`,
`std::vector<double>` as `List ℚ`. -/
structure Particle where
  position : List ℚ
  velocity : List ℚ
  personal_best : List ℚ
  personal_best_fitness : ℚ
  current_fitness : ℚ

/-- A default-constructed `Particle`: the three vectors default-construct
empty; the two `double` members have no initializer, so their values are
indeterminate - taken here as explicit arbitrary arguments. -/
def defaultParticle (junkPB junkCur : ℚ) : Particle :=
  ⟨[], [], [], junkPB, junkCur⟩

/-- The `PSOParameters` struct with its default member initializers. -/
structure PSOParameters where
  swarm_size : Int := 30
  max_iterations : Int := 1000
  inertia_weight : ℚ := 0.7298
  cognitive_coeff : ℚ := 2.0
  social_coeff : ℚ := 2.0
  velocity_clamp_factor : ℚ := 0.2
  fitness_threshold : ℚ := 0.000001
  stagnation_iterations : Int := 100

/-- A default-constructed `PSOParameters`. -/
def defaultPSOParameters : PSOParameters := {}

/-- The `OptimisationResult` struct, with the source's field spelling
`coverged` kept verbatim. -/
structure OptimisationResult where
  best_position : List ℚ
  best_fitness : ℚ
  iterations : Int
  function_evaluations : Int
  fitness_history : List ℚ
  coverged : Bool
  convergence_reason : String

/-! ### Boundary handling of the Optimizer (not present in the source tree) -/

/-- Modelled from the spec: the boundary policy of the Optimizer's
per-iteration update (spec section 4.2); the Optimizer itself is absent from
the source tree.  After the position update, a component falling outside
`[lower, upper]` is clamped to the nearest bound and that dimension's
velocity component is zeroed; components inside the box are untouched. -/
def handleBoundaryDim (lower upper p v : ℚ) : ℚ × ℚ :=
  if p < lower then (lower, 0)
  else if upper < p then (upper, 0)
  else (p, v)

/-- Modelled from the spec: boundary handling applied dimension-wise to a
particle's position and velocity vectors. -/
def handleBoundary : List ℚ → List ℚ → List ℚ → List ℚ → List (ℚ × ℚ)
  | lo :: los, hi :: his, p :: ps, v :: vs =>
    handleBoundaryDim lo hi p v :: handleBoundary los his ps vs
  | _, _, _, _ => []

/-! ### Helper lemmas -/

theorem temper_lt (y : Nat) : temper y < 4294967296 :=
  Nat.mod_lt _ (by norm_num)

theorem mtNext_fst_lt (s : MtState) : (mtNext s).1 < 4294967296 :=
  temper_lt _

theorem nextCanonical_fst (s : MtState) :
    (nextCanonical s).1 =
      (((mtNext s).1 + (mtNext (mtNext s).2).1 * 4294967296 : ℕ) : ℚ) /
        18446744073709551616 :=
  rfl

theorem nextCanonical_nonneg (s : MtState) : 0 ≤ (nextCanonical s).1 := by
  rw [nextCanonical_fst]
  positivity

theorem nextCanonical_lt_one (s : MtState) : (nextCanonical s).1 < 1 := by
  rw [nextCanonical_fst, div_lt_one (by norm_num)]
  have h1 := mtNext_fst_lt s
  have h2 := mtNext_fst_lt (mtNext s).2
  have h : ((mtNext s).1 + (mtNext (mtNext s).2).1 * 4294967296 : ℕ) <
      18446744073709551616 := by omega
  exact_mod_cast h

theorem uniform_fst (g : RandomGenerator) (lo hi : ℚ) :
    (uniform g lo hi).1 = (nextCanonical g.gen).1 * (hi - lo) + lo :=
  rfl

theorem uniform_snd (g : RandomGenerator) (lo hi : ℚ) :
    (uniform g lo hi).2 = ⟨(nextCanonical g.gen).2, lo, hi⟩ :=
  rfl

theorem runCalls_congr_gen (args : List (ℚ × ℚ)) :
    ∀ g₁ g₂ : RandomGenerator, g₁.gen = g₂.gen →
      runCalls g₁ args = runCalls g₂ args := by
  induction args with
  | nil => intro g₁ g₂ _; rfl
  | cons p rest ih =>
    obtain ⟨lo, hi⟩ := p
    intro g₁ g₂ h
    simp only [runCalls, uniform_fst, uniform_snd, h]

theorem runCalls_single_unit (g : RandomGenerator) :
    runCalls g [(0, 1)] = [(nextCanonical g.gen).1] := by
  simp [runCalls, uniform_fst]

/-! ### Claims about RandomGenerator -/

/-- A generator seeded with `s`: either freshly built by the seeded
constructor, or any previously existing instance after a `setSeed(s)`
call. -/
def SeededWith (s : Nat) (g : RandomGenerator) : Prop :=
  g = mkSeeded s ∨ ∃ prior : RandomGenerator, g = setSeed prior s

/-- C3: two RandomGenerator instances both seeded with the same seed -
whether by the seeded constructor or by setSeed - and driven with the same
sequence of uniform calls produce identical output sequences. -/
theorem seeded_instances_identical_outputs
    (s : Nat) (g₁ g₂ : RandomGenerator)
    (h₁ : SeededWith s g₁) (h₂ : SeededWith s g₂)
    (args : List (ℚ × ℚ)) :
    runCalls g₁ args = runCalls g₂ args := by
  have key : ∀ g, SeededWith s g → g.gen = mtInit s := by
    rintro g (rfl | ⟨prior, rfl⟩) <;> rfl
  exact runCalls_congr_gen args g₁ g₂ ((key g₁ h₁).trans (key g₂ h₂).symm)

/-- Witness for C3 at seed 12345: a constructor-seeded instance and a
setSeed-reseeded instance agree on a concrete call sequence. -/
theorem seeded_instances_identical_outputs_witness :
    SeededWith 12345 (mkSeeded 12345) ∧
    SeededWith 12345 (setSeed (mkSeeded 99) 12345) ∧
    runCalls (mkSeeded 12345) [(0, 1), (0, 1)] =
      runCalls (setSeed (mkSeeded 99) 12345) [(0, 1), (0, 1)] :=
  ⟨Or.inl rfl, Or.inr ⟨mkSeeded 99, rfl⟩,
    seeded_instances_identical_outputs 12345 _ _ (Or.inl rfl)
      (Or.inr ⟨mkSeeded 99, rfl⟩) _⟩

/-- C8: reseeding erases all observable effect of prior state: whatever
uniform calls an instance served before - and whatever distribution
parameters those calls left behind in `distribution_` - after `setSeed(s)`
it produces exactly the output sequence of a fresh `RandomGenerator(s)` on
the same subsequent calls. -/
theorem setSeed_erases_history
    (prior : RandomGenerator) (s : Nat) (args : List (ℚ × ℚ)) :
    runCalls (setSeed prior s) args = runCalls (mkSeeded s) args :=
  runCalls_congr_gen args _ _ rfl

/-- C4: for min ≤ max, uniform returns a value within [min, max] (exact
rational embedding of the double arithmetic). -/
theorem uniform_within_bounds
    (g : RandomGenerator) (lo hi : ℚ) (h : lo ≤ hi) :
    lo ≤ (uniform g lo hi).1 ∧ (uniform g lo hi).1 ≤ hi := by
  rw [uniform_fst]
  have h0 := nextCanonical_nonneg g.gen
  have h1 := (nextCanonical_lt_one g.gen).le
  constructor
  · nlinarith
  · nlinarith

/-- Witness for C4 on the concrete instance RandomGenerator(42) with the
range [0, 1]. -/
theorem uniform_within_bounds_witness :
    (0 : ℚ) ≤ 1 ∧
    (0 ≤ (uniform (mkSeeded 42) 0 1).1 ∧ (uniform (mkSeeded 42) 0 1).1 ≤ 1) :=
  ⟨by norm_num, uniform_within_bounds (mkSeeded 42) 0 1 (by norm_num)⟩

/-- C10: the degenerate equal-bounds call uniform(a, a) goes through the
same unvalidated path as any other call and returns exactly a, the unique
point of the range. -/
theorem uniform_degenerate_range (g : RandomGenerator) (a : ℚ) :
    (uniform g a a).1 = a := by
  rw [uniform_fst]; ring

/-- C1 counterexample: at min = 1 > max = 0 the specification's RandomSource
contract demands an InvalidRange failure, but the implementation performs no
range check: the call on RandomGenerator(42) completes normally,
reparameterizing the distribution to (1, 0) and returning a drawn value. -/
theorem uniform_min_gt_max_returns :
    uniformContract (mkSeeded 42) 1 0 = Except.error RngError.InvalidRange ∧
    (uniform (mkSeeded 42) 1 0).2.distA = 1 ∧
    (uniform (mkSeeded 42) 1 0).2.distB = 0 := by
  refine ⟨?_, rfl, rfl⟩
  norm_num [uniformContract]

/-- C1 amended: for min > max, uniform does not fail: it unconditionally
installs (min, max) as the distribution parameters and returns the draw
computed from them (behaviour the C++ standard leaves to the distribution's
violated precondition). -/
theorem uniform_no_range_validation
    (g : RandomGenerator) (lo hi : ℚ) (_h : hi < lo) :
    (uniform g lo hi).2.distA = lo ∧ (uniform g lo hi).2.distB = hi ∧
    (uniform g lo hi).1 = (nextCanonical g.gen).1 * (hi - lo) + lo :=
  ⟨rfl, rfl, rfl⟩

/-- Witness for the amended C1 at the concrete inverted range (1, 0). -/
theorem uniform_no_range_validation_witness :
    (0 : ℚ) < 1 ∧
    ((uniform (mkSeeded 42) 1 0).2.distA = 1 ∧
      (uniform (mkSeeded 42) 1 0).2.distB = 0 ∧
      (uniform (mkSeeded 42) 1 0).1 =
        (nextCanonical (mkSeeded 42).gen).1 * (0 - 1) + 1) :=
  ⟨by norm_num, uniform_no_range_validation (mkSeeded 42) 1 0 (by norm_num)⟩

set_option maxRecDepth 10000 in
/-- C7: the default constructor seeds the engine with the xor-combination of
hardware entropy and clock ticks, both taken from outside the program
(see mkDefault), so two unseeded instances are not guaranteed to produce
identical output sequences: environments differing in a single clock tick
already give different first outputs. -/
theorem default_construction_entropy_dependent :
    ∃ e₁ t₁ e₂ t₂ : Nat,
      runCalls (mkDefault e₁ t₁) [(0, 1)] ≠
        runCalls (mkDefault e₂ t₂) [(0, 1)] := by
  refine ⟨0, 0, 0, 1, ?_⟩
  rw [runCalls_single_unit, runCalls_single_unit]
  have hg0 : (mkDefault 0 0).gen = mtInit 0 := rfl
  have hg1 : (mkDefault 0 1).gen = mtInit 1 := rfl
  rw [hg0, hg1, nextCanonical_fst, nextCanonical_fst]
  have key : ((mtNext (mtInit 0)).1 +
        (mtNext (mtNext (mtInit 0)).2).1 * 4294967296 : ℕ) ≠
      ((mtNext (mtInit 1)).1 +
        (mtNext (mtNext (mtInit 1)).2).1 * 4294967296 : ℕ) := by
    decide
  intro hlist
  apply key
  have hq := (List.cons.inj hlist).1
  have hc := (div_left_inj' (by norm_num :
      (18446744073709551616 : ℚ) ≠ 0)).mp hq
  exact_mod_cast hc

/-! ### Claims about the plain data types -/

/-- C5: the default-constructed PSOParameters satisfies every constraint the
specification attaches to its fields: positive swarm size and iteration
budget, velocity_clamp_factor in (0, 1], inertia_weight within 0.1 of the
conventional 0.7, and cognitive and social coefficients exactly the
conventional 2.0. -/
theorem defaultPSOParameters_constraints :
    0 < defaultPSOParameters.swarm_size ∧
    0 < defaultPSOParameters.max_iterations ∧
    0 < defaultPSOParameters.velocity_clamp_factor ∧
    defaultPSOParameters.velocity_clamp_factor ≤ 1 ∧
    |defaultPSOParameters.inertia_weight - 0.7| ≤ 0.1 ∧
    defaultPSOParameters.cognitive_coeff = 2 ∧
    defaultPSOParameters.social_coeff = 2 := by
  norm_num [defaultPSOParameters, abs_le]

/-- C2: the OptimisationResult type does carry a Bool convergence flag, but
under the source's misspelled field name `coverged`, not `converged`; the
flag stored at construction is what that field returns. -/
theorem optimisationResult_coverged_field
    (pos : List ℚ) (fit : ℚ) (it evals : Int) (hist : List ℚ)
    (flag : Bool) (reason : String) :
    (OptimisationResult.mk pos fit it evals hist flag reason).coverged =
      flag :=
  rfl

/-- C9: a default-constructed Particle has empty position, velocity and
personal_best vectors, while its two fitness fields merely pass through
whatever indeterminate values the uninitialized doubles happen to hold: two
junk choices yield observably different fitness readings, so no defined
starting value exists. -/
theorem defaultParticle_state :
    (∀ j₁ j₂ : ℚ, (defaultParticle j₁ j₂).position = [] ∧
      (defaultParticle j₁ j₂).velocity = [] ∧
      (defaultParticle j₁ j₂).personal_best = []) ∧
    (∀ j₁ j₂ : ℚ, (defaultParticle j₁ j₂).personal_best_fitness = j₁ ∧
      (defaultParticle j₁ j₂).current_fitness = j₂) ∧
    ((defaultParticle 0 0).personal_best_fitness ≠
        (defaultParticle 1 1).personal_best_fitness ∧
      (defaultParticle 0 0).current_fitness ≠
        (defaultParticle 1 1).current_fitness) := by
  refine ⟨fun j₁ j₂ => ⟨rfl, rfl, rfl⟩, fun j₁ j₂ => ⟨rfl, rfl⟩, ?_, ?_⟩ <;>
    norm_num [defaultParticle]

/-! ### Claims about the boundary policy (spec-modelled) -/

theorem handleBoundaryDim_spec (lo hi p v : ℚ) (h : lo ≤ hi) :
    lo ≤ (handleBoundaryDim lo hi p v).1 ∧
    (handleBoundaryDim lo hi p v).1 ≤ hi ∧
    ((p < lo ∨ hi < p) → (handleBoundaryDim lo hi p v).2 = 0) := by
  unfold handleBoundaryDim
  split_ifs with h1 h2
  · exact ⟨le_refl _, h, fun _ => rfl⟩
  · exact ⟨h, le_refl _, fun _ => rfl⟩
  · refine ⟨le_of_not_lt h1, le_of_not_lt h2, ?_⟩
    rintro (hc | hc)
    · exact absurd hc h1
    · exact absurd hc h2

theorem handleBoundary_getD (d : ℚ × ℚ) :
    ∀ (los his ps vs : List ℚ) (i : Nat),
      i < (handleBoundary los his ps vs).length →
      (handleBoundary los his ps vs).getD i d =
        handleBoundaryDim (los.getD i 0) (his.getD i 0) (ps.getD i 0)
          (vs.getD i 0) := by
  intro los
  induction los with
  | nil =>
    intro his ps vs i h
    exact absurd h (by rw [show handleBoundary [] his ps vs = [] from rfl]; simp)
  | cons lo los ih =>
    intro his ps vs i h
    cases his with
    | nil =>
      exact absurd h
        (by rw [show handleBoundary (lo :: los) [] ps vs = [] from rfl]; simp)
    | cons hi his =>
      cases ps with
      | nil =>
        exact absurd h
          (by rw [show handleBoundary (lo :: los) (hi :: his) [] vs = []
                from rfl]; simp)
      | cons p ps =>
        cases vs with
        | nil =>
          exact absurd h
            (by rw [show handleBoundary (lo :: los) (hi :: his) (p :: ps) []
                  = [] from rfl]; simp)
        | cons v vs =>
          cases i with
          | zero => rfl
          | succ i =>
            simp only [handleBoundary, List.length_cons,
              Nat.succ_lt_succ_iff] at h
            simp only [handleBoundary, List.getD_cons_succ]
            exact ih his ps vs i h

/-- C6: after the boundary handling of an iteration's position update, every
dimension's position lies within its bounds, and a dimension whose position
fell outside the box - hence was clamped to a bound - has its velocity
component zeroed in that step. -/
theorem handleBoundary_invariant
    (lower upper pos vel : List ℚ) (i : Nat)
    (hlen : i < (handleBoundary lower upper pos vel).length)
    (hbound : lower.getD i 0 ≤ upper.getD i 0) :
    lower.getD i 0 ≤ ((handleBoundary lower upper pos vel).getD i (0, 0)).1 ∧
    ((handleBoundary lower upper pos vel).getD i (0, 0)).1 ≤
      upper.getD i 0 ∧
    ((pos.getD i 0 < lower.getD i 0 ∨ upper.getD i 0 < pos.getD i 0) →
      ((handleBoundary lower upper pos vel).getD i (0, 0)).2 = 0) := by
  rw [handleBoundary_getD (0, 0) lower upper pos vel i hlen]
  exact handleBoundaryDim_spec _ _ _ _ hbound

/-- Witness for C6 on a concrete two-dimensional particle whose first
component escapes above the box: it is clamped to the upper bound and its
velocity zeroed. -/
theorem handleBoundary_invariant_witness :
    0 < (handleBoundary [0, 0] [2, 2] [3, 1] [5, 7]).length ∧
    ([0, 0] : List ℚ).getD 0 0 ≤ ([2, 2] : List ℚ).getD 0 0 ∧
    (([0, 0] : List ℚ).getD 0 0 ≤
        ((handleBoundary [0, 0] [2, 2] [3, 1] [5, 7]).getD 0 (0, 0)).1 ∧
      ((handleBoundary [0, 0] [2, 2] [3, 1] [5, 7]).getD 0 (0, 0)).1 ≤
        ([2, 2] : List ℚ).getD 0 0 ∧
      ((([3, 1] : List ℚ).getD 0 0 < ([0, 0] : List ℚ).getD 0 0 ∨
          ([2, 2] : List ℚ).getD 0 0 < ([3, 1] : List ℚ).getD 0 0) →
        ((handleBoundary [0, 0] [2, 2] [3, 1] [5, 7]).getD 0 (0, 0)).2 =
          0)) :=
  ⟨by decide, by norm_num,
    handleBoundary_invariant [0, 0] [2, 2] [3, 1] [5, 7] 0 (by decide)
      (by norm_num)⟩

end PSO
